import Mathlib

/-!
Verification of the AdarshPulse gap-analysis engine.

Shallow embedding of the two Python source files:
  * `src/app.py`  — the dashboard: `calculate_gaps`, `assign_priority_color`,
    the top-5 ranking (`df.sort_values(by="priority_score", ascending=False).head(5)`)
    and the progress-simulation block;
  * `src/prototype.py` — the command-line prototype: `analyze_gaps` and its
    own top-5 ranking.

Counts are natural numbers (the loader coerces the count columns to
non-negative integers, filling missing values with 0).  The one fractional
threshold, `toilets_per_household`, ranges over {1.0, 1.1, 1.2} (slider step
0.1), so it is embedded exactly as a number of tenths in {10, 11, 12}; the
Python expression `math.ceil(households * toilets_per_household)` is embedded
as the exact ceiling `⌈households * tenths / 10⌉`.  Electricity hours are
embedded as natural numbers in [0, 24].

The ranking line delegates to pandas `sort_values` with its default
`kind='quicksort'`; its tie behaviour is decided by `pandas.core.sorting.nargsort`
and numpy's `npysort` introsort, both of which are embedded below
(fuel-bounded where the C loops are not structurally recursive).
-/

namespace AdarshPulse

/-- Ceiling division `⌈a / b⌉` on naturals, the meaning of Python's
`math.ceil(a / b)` for non-negative integers. -/
def ceilDiv (a b : Nat) : Nat := (a + b - 1) / b

/-- One row of `sample_villages.csv` after the loader of `app.py` has cleaned
it: the count columns are non-negative integers with missing values filled by
0; `electricity_hours` is a number in [0, 24]. -/
structure Village where
  village_name : String
  population : Nat
  households : Nat
  schools : Nat
  toilets : Nat
  PHCs : Nat
  water_points : Nat
  electricity_hours : Nat
deriving DecidableEq, Repr

/-- The threshold dictionary of `app.py` (`BASE_THRESHOLDS` /
`ADJUSTED_THRESHOLDS`).  `toilets_per_household_tenths` holds
`toilets_per_household × 10`, so the slider values 1.0, 1.1, 1.2 are
10, 11, 12. -/
structure Thresholds where
  schools_per_1000 : Nat
  toilets_per_household_tenths : Nat
  PHCs_min : Nat
  water_points_per_50_hh : Nat
  electricity_hours_min : Nat
deriving DecidableEq, Repr

/-- The sidebar slider bounds of `app.py` (lines 108-123): schools 1-3,
toilets-per-household 1.0-1.2 (step 0.1), PHCs 1-3, water points 1-3,
electricity minimum hours 10-24. -/
def InBounds (bt : Thresholds) : Prop :=
  1 ≤ bt.schools_per_1000 ∧ bt.schools_per_1000 ≤ 3 ∧
  10 ≤ bt.toilets_per_household_tenths ∧ bt.toilets_per_household_tenths ≤ 12 ∧
  1 ≤ bt.PHCs_min ∧ bt.PHCs_min ≤ 3 ∧
  1 ≤ bt.water_points_per_50_hh ∧ bt.water_points_per_50_hh ≤ 3 ∧
  10 ≤ bt.electricity_hours_min ∧ bt.electricity_hours_min ≤ 24

instance (bt : Thresholds) : Decidable (InBounds bt) := by
  unfold InBounds; infer_instance

/-- `BASE_THRESHOLDS` of `app.py` lines 14-25 (and identically
`prototype.py` lines 8-14): 1 school per 1000, 1.0 toilets per household,
1 PHC minimum, 1 water point per 50 households, 24 hours of electricity. -/
def BASE_THRESHOLDS : Thresholds :=
  { schools_per_1000 := 1
    toilets_per_household_tenths := 10
    PHCs_min := 1
    water_points_per_50_hh := 1
    electricity_hours_min := 24 }

/-- `calculate_gaps(row, base_thresholds)` of `app.py` lines 52-98,
transliterated block by block; the Python list/score mutations become
updates of the accumulator triple `(gaps, score, improvements)`.
Returns `(gaps, score, improvements)` exactly as the Python function does. -/
def calculate_gaps (row : Village) (bt : Thresholds) :
    List String × Nat × List String :=
  let st : List String × Nat × List String := ([], 0, [])
  -- 1. Schools (Dynamic: 1 per 1000 population, min 1)
  let required_schools := max 1 (ceilDiv row.population 1000 * bt.schools_per_1000)
  let st :=
    if row.schools < required_schools then
      let need := required_schools - row.schools
      (st.1 ++ ["Schools"], st.2.1 + need,
       st.2.2 ++ [s!"{need} more school(s) (Target: {required_schools})"])
    else st
  -- 2. Toilets (Dynamic: 1 per household - 100% saturation)
  let required_toilets := ceilDiv (row.households * bt.toilets_per_household_tenths) 10
  let st :=
    if row.toilets < required_toilets then
      let need := required_toilets - row.toilets
      (st.1 ++ ["Toilets"], st.2.1 + min 5 (ceilDiv need 100),
       st.2.2 ++ [s!"Complete {need} household toilet(s) (Target: {required_toilets})"])
    else st
  -- 3. PHCs (Fixed Minimum)
  let required_PHCs := bt.PHCs_min
  let st :=
    if row.PHCs < required_PHCs then
      let need := required_PHCs - row.PHCs
      (st.1 ++ ["PHCs"], st.2.1 + need * 3,
       st.2.2 ++ [s!"{need} more PHC/Sub-centre(s) (Target: {required_PHCs})"])
    else st
  -- 4. Water Points (Dynamic: 1 per 50 households, min 1)
  let required_water := max 1 (ceilDiv row.households 50 * bt.water_points_per_50_hh)
  let st :=
    if row.water_points < required_water then
      let need := required_water - row.water_points
      (st.1 ++ ["Water Points"], st.2.1 + need,
       st.2.2 ++ [s!"{need} more water point(s) (Target: {required_water})"])
    else st
  -- 5. Electricity (Fixed: 24-hour supply)
  let required_electricity := bt.electricity_hours_min
  let st :=
    if row.electricity_hours < required_electricity then
      (st.1 ++ ["Electricity"],
       st.2.1 + ceilDiv (required_electricity - row.electricity_hours) 4,
       st.2.2 ++ [s!"Need {required_electricity} hrs electricity supply"])
    else st
  st

/-- The gaps list component of `calculate_gaps`. -/
def gapsOf (row : Village) (bt : Thresholds) : List String :=
  (calculate_gaps row bt).1

/-- The priority score component of `calculate_gaps`. -/
def scoreOf (row : Village) (bt : Thresholds) : Nat :=
  (calculate_gaps row bt).2.1

/-- The improvements list component of `calculate_gaps`. -/
def improvementsOf (row : Village) (bt : Thresholds) : List String :=
  (calculate_gaps row bt).2.2

/-- `assign_priority_color(score)` of `app.py` lines 133-136. -/
def assign_priority_color (score : Nat) : String :=
  if score ≥ 10 then "red"
  else if score ≥ 5 then "orange"
  else "green"

/-- Numeric severity of a priority tier, for stating monotonicity:
green 0, orange 1, red 2. -/
def tierSeverity (color : String) : Nat :=
  if color = "red" then 2 else if color = "orange" then 1 else 0

/-! ### Per-category requirements and contributions

These name the five requirement formulas, score contributions and suggestion
texts that appear inline in `calculate_gaps`; the characterization lemmas
below prove that `calculate_gaps` is exactly their sequential assembly. -/

/-- The five gap categories of `calculate_gaps`. -/
inductive Category where
  | Schools | Toilets | PHCs | WaterPoints | Electricity
deriving DecidableEq, Repr

/-- The label string `calculate_gaps` appends to `gaps` for each category. -/
def Category.label : Category → String
  | .Schools => "Schools"
  | .Toilets => "Toilets"
  | .PHCs => "PHCs"
  | .WaterPoints => "Water Points"
  | .Electricity => "Electricity"

/-- Required schools: `max(1, ceil(population / 1000) * schools_per_1000)`. -/
def required_schools (row : Village) (bt : Thresholds) : Nat :=
  max 1 (ceilDiv row.population 1000 * bt.schools_per_1000)

/-- Required toilets: `ceil(households * toilets_per_household)`. -/
def required_toilets (row : Village) (bt : Thresholds) : Nat :=
  ceilDiv (row.households * bt.toilets_per_household_tenths) 10

/-- Required water points: `max(1, ceil(households / 50) * water_points_per_50_hh)`. -/
def required_water (row : Village) (bt : Thresholds) : Nat :=
  max 1 (ceilDiv row.households 50 * bt.water_points_per_50_hh)

/-- The toilet score contribution as a function of the shortfall:
`min(5, math.ceil(shortfall / 100))` (`app.py` line 72, `prototype.py`
line 50). -/
def toiletGapScore (shortfall : Nat) : Nat :=
  min 5 (ceilDiv shortfall 100)

/-- Schools score contribution: the shortfall when deficient, else 0. -/
def schoolsContribution (row : Village) (bt : Thresholds) : Nat :=
  if row.schools < required_schools row bt
  then required_schools row bt - row.schools else 0

/-- Toilets score contribution: `min(5, ceil(shortfall / 100))` when
deficient, else 0. -/
def toiletsContribution (row : Village) (bt : Thresholds) : Nat :=
  if row.toilets < required_toilets row bt
  then min 5 (ceilDiv (required_toilets row bt - row.toilets) 100) else 0

/-- PHCs score contribution: `shortfall * 3` when deficient, else 0. -/
def phcsContribution (row : Village) (bt : Thresholds) : Nat :=
  if row.PHCs < bt.PHCs_min then (bt.PHCs_min - row.PHCs) * 3 else 0

/-- Water-points score contribution: the shortfall when deficient, else 0. -/
def waterContribution (row : Village) (bt : Thresholds) : Nat :=
  if row.water_points < required_water row bt
  then required_water row bt - row.water_points else 0

/-- Electricity score contribution:
`ceil((electricity_hours_min - electricity_hours) / 4)` when deficient,
else 0. -/
def electricityContribution (row : Village) (bt : Thresholds) : Nat :=
  if row.electricity_hours < bt.electricity_hours_min
  then ceilDiv (bt.electricity_hours_min - row.electricity_hours) 4 else 0

/-- The score contribution of each category. -/
def contribution (row : Village) (bt : Thresholds) : Category → Nat
  | .Schools => schoolsContribution row bt
  | .Toilets => toiletsContribution row bt
  | .PHCs => phcsContribution row bt
  | .WaterPoints => waterContribution row bt
  | .Electricity => electricityContribution row bt

/-- The improvement suggestion text each category emits when deficient. -/
def improvementText (row : Village) (bt : Thresholds) : Category → String
  | .Schools =>
      s!"{required_schools row bt - row.schools} more school(s) (Target: {required_schools row bt})"
  | .Toilets =>
      s!"Complete {required_toilets row bt - row.toilets} household toilet(s) (Target: {required_toilets row bt})"
  | .PHCs =>
      s!"{bt.PHCs_min - row.PHCs} more PHC/Sub-centre(s) (Target: {bt.PHCs_min})"
  | .WaterPoints =>
      s!"{required_water row bt - row.water_points} more water point(s) (Target: {required_water row bt})"
  | .Electricity =>
      s!"Need {bt.electricity_hours_min} hrs electricity supply"

/-- Whether a given category is deficient for `row` under `bt`, i.e. whether
`calculate_gaps` emits it. -/
def deficient (row : Village) (bt : Thresholds) : Category → Bool
  | .Schools => row.schools < required_schools row bt
  | .Toilets => row.toilets < required_toilets row bt
  | .PHCs => row.PHCs < bt.PHCs_min
  | .WaterPoints => row.water_points < required_water row bt
  | .Electricity => row.electricity_hours < bt.electricity_hours_min

/-- The five categories in the evaluation order of `calculate_gaps`. -/
def categoryOrder : List Category :=
  [.Schools, .Toilets, .PHCs, .WaterPoints, .Electricity]

/-! ### The prototype variant (`src/prototype.py`) -/

/-- `analyze_gaps(row)` of `prototype.py` lines 35-69, transliterated block by
block.  It uses the fixed `BASE_THRESHOLDS`, emits the labels "Schools",
"Toilets", "PHC", "Electricity", "Water" (in that evaluation order — the last
two rules are swapped relative to `calculate_gaps`), produces no improvement
text, and adds a flat 3 for a PHC gap instead of `shortfall * 3`. -/
def analyze_gaps (row : Village) : List String × Nat :=
  let st : List String × Nat := ([], 0)
  -- 1. Schools (Dynamic: 1 per 1000 population, min 1)
  let required_schools :=
    max 1 (ceilDiv row.population 1000 * BASE_THRESHOLDS.schools_per_1000)
  let st :=
    if row.schools < required_schools then
      let need := required_schools - row.schools
      (st.1 ++ ["Schools"], st.2 + need)
    else st
  -- 2. Toilets (Dynamic: 1 per household)
  let required_toilets :=
    ceilDiv (row.households * BASE_THRESHOLDS.toilets_per_household_tenths) 10
  let st :=
    if row.toilets < required_toilets then
      (st.1 ++ ["Toilets"], st.2 + min 5 (ceilDiv (required_toilets - row.toilets) 100))
    else st
  -- 3. PHC (Fixed Minimum: 1)
  let st :=
    if row.PHCs < BASE_THRESHOLDS.PHCs_min then (st.1 ++ ["PHC"], st.2 + 3) else st
  -- 4. Electricity (Fixed: 24 hours)
  let st :=
    if row.electricity_hours < BASE_THRESHOLDS.electricity_hours_min then
      (st.1 ++ ["Electricity"],
       st.2 + ceilDiv (BASE_THRESHOLDS.electricity_hours_min - row.electricity_hours) 4)
    else st
  -- 5. Water points (Dynamic: 1 per 50 households, min 1)
  let required_water :=
    max 1 (ceilDiv row.households 50 * BASE_THRESHOLDS.water_points_per_50_hh)
  let st :=
    if row.water_points < required_water then
      (st.1 ++ ["Water"], st.2 + (required_water - row.water_points))
    else st
  st

/-- The gap label `analyze_gaps` uses for each category ("PHC" and "Water"
instead of the dashboard's "PHCs" and "Water Points"). -/
def protoLabel : Category → String
  | .Schools => "Schools"
  | .Toilets => "Toilets"
  | .PHCs => "PHC"
  | .WaterPoints => "Water"
  | .Electricity => "Electricity"

/-- The evaluation order of `analyze_gaps`: electricity before water. -/
def protoOrder : List Category :=
  [.Schools, .Toilets, .PHCs, .Electricity, .WaterPoints]

/-! ### The progress-simulation block (`src/app.py` lines 260-285) -/

/-- The infrastructure choices of the simulation selectbox
("School", "Toilet (100 HH)", "PHC", "Water Point", "Electricity Hours"). -/
inductive Infra where
  | School | Toilet100 | PHC | WaterPoint | ElectricityHours
deriving DecidableEq, Repr

/-- The upgrade application of `app.py` lines 269-274, acting on the copied
row `sim_row`: School/PHC/Water Point add `increment` to the corresponding
count, Toilet adds `increment * 100` toilets, and Electricity Hours sets the
hours to `min(24, hours + increment)`. -/
def applyUpgrade (sim_row : Village) (infra : Infra) (increment : Nat) : Village :=
  match infra with
  | .School => { sim_row with schools := sim_row.schools + increment }
  | .PHC => { sim_row with PHCs := sim_row.PHCs + increment }
  | .WaterPoint => { sim_row with water_points := sim_row.water_points + increment }
  | .Toilet100 => { sim_row with toilets := sim_row.toilets + increment * 100 }
  | .ElectricityHours =>
      { sim_row with electricity_hours := min 24 (sim_row.electricity_hours + increment) }

/-- The values the simulation block computes and displays. -/
structure SimResult where
  new_score : Nat
  new_color : String
  original_score : Nat
  original_color : String
  /-- The village collection as the block leaves it. -/
  df_after : List Village
deriving DecidableEq, Repr

/-- The simulation block of `app.py` lines 265-285: it selects the first row
whose name matches (`df[df["village_name"]==sim_village].iloc[0]`), takes a
`.copy()` of it, applies the upgrade to the copy, re-runs `calculate_gaps`
and `assign_priority_color` on the copy, and reads the original score/color
back out of the untouched `df`.  The block never assigns into `df`, and the
upgrade mutates only the copy, so the collection it leaves behind
(`df_after`) is the input collection itself.  `none` when no row matches
(the dashboard only offers existing names). -/
def simulation (dfL : List Village) (bt : Thresholds) (sim_village : String)
    (infra : Infra) (increment : Nat) : Option SimResult :=
  match dfL.find? (fun r => r.village_name == sim_village) with
  | none => none
  | some row =>
      let sim_row := applyUpgrade row infra increment
      let new_score := scoreOf sim_row bt
      some
        { new_score := new_score
          new_color := assign_priority_color new_score
          original_score := scoreOf row bt
          original_color := assign_priority_color (scoreOf row bt)
          df_after := dfL }

/-- `analyzeAll` of the spec: the per-row application of `calculate_gaps`
(`df.apply` in `app.py` line 128), read off as the score sequence. -/
def analyzeAllScores (dfL : List Village) (bt : Thresholds) : List Nat :=
  dfL.map (fun r => scoreOf r bt)

/-! ### The top-5 ranking (`src/app.py` line 163, `src/prototype.py` line 85)

`df.sort_values(by="priority_score", ascending=False).head(5)` sorts with the
pandas default `kind='quicksort'`.  For a single key column without missing
values this is `pandas.core.sorting.nargsort`, which reverses the keys and
the index array, takes numpy's ascending `argsort` of the requested kind, and
reverses the composed indexer; the argsort itself is numpy's `aquicksort_`
introsort from `npysort/quicksort.c.src` (median-of-three quicksort over an
index array, insertion sort for segments of at most `SMALL_QUICKSORT + 1 = 16`
elements, heapsort once a global `2 * npy_get_msb(n)` budget of partition
rounds is spent).  Those loops are embedded fuel-bounded below: `none` stands
for running out of fuel or reaching the unmodelled heapsort fallback, and
never occurs on the inputs evaluated here. -/

/-- Swap the entries at positions `i` and `j` of the index list (C's
`INTP_SWAP`); out-of-range positions leave the list unchanged. -/
def swapIdx (a : List Nat) (i j : Nat) : List Nat :=
  let t := a.getD i 0
  (a.set i (a.getD j 0)).set j t

/-- The key of the index stored at position `p` of `ts`, i.e. C's `v[*p]`. -/
def keyAt (keys ts : List Nat) (p : Nat) : Nat :=
  keys.getD (ts.getD p 0) 0

/-- C's `do ++pi; while (v[*pi] < vp)`: advance `pi` past keys smaller than
the pivot. -/
def scanUp (keys ts : List Nat) (vp : Nat) : Nat → Nat → Option Nat
  | 0, _ => none
  | fuel + 1, pi =>
      let pi := pi + 1
      if keyAt keys ts pi < vp then scanUp keys ts vp fuel pi else some pi

/-- C's `do --pj; while (vp < v[*pj])`: move `pj` down past keys larger than
the pivot. -/
def scanDown (keys ts : List Nat) (vp : Nat) : Nat → Nat → Option Nat
  | 0, _ => none
  | fuel + 1, pj =>
      let pj := pj - 1
      if vp < keyAt keys ts pj then scanDown keys ts vp fuel pj else some pj

/-- The two-pointer partition loop of numpy's `aquicksort_`: repeatedly scan
`pi` up and `pj` down, swapping the out-of-place pair, until the pointers
cross; returns the final index list and `pi`. -/
def partLoop (keys : List Nat) (vp : Nat) :
    Nat → List Nat → Nat → Nat → Option (List Nat × Nat)
  | 0, _, _, _ => none
  | fuel + 1, ts, pi, pj => do
      let pi ← scanUp keys ts vp (fuel + 1) pi
      let pj ← scanDown keys ts vp (fuel + 1) pj
      if pi ≥ pj then some (ts, pi)
      else partLoop keys vp fuel (swapIdx ts pi pj) pi pj

/-- The shifting inner loop of numpy's insertion sort
(`while (pj > pl && LT(vp, v[*pk])) { *pj-- = *pk--; }`): shift the sorted
prefix right while its keys exceed `vp`; returns the list and the final
`pj`. -/
def insShift (keys : List Nat) (vp pl : Nat) : List Nat → Nat → List Nat × Nat
  | ts, 0 => (ts, 0)
  | ts, pj + 1 =>
      if pl < pj + 1 ∧ vp < keyAt keys ts pj then
        insShift keys vp pl (ts.set (pj + 1) (ts.getD pj 0)) pj
      else (ts, pj + 1)

/-- The insertion-sort pass of numpy's `aquicksort_` over positions
`pl .. pl + n`: the `n` iterations of `for (pi = pl + 1; pi <= pr; ++pi)`. -/
def insLoop (keys : List Nat) (pl : Nat) : Nat → List Nat → Nat → List Nat
  | 0, ts, _ => ts
  | n + 1, ts, pi =>
      let vi := ts.getD pi 0
      let vp := keys.getD vi 0
      let (ts, pj) := insShift keys vp pl ts pi
      insLoop keys pl n (ts.set pj vi) (pi + 1)

/-- `npy_get_msb`: the position of the most significant set bit
(`⌊log₂ n⌋`), computed with structural fuel so that it reduces by `rfl`. -/
def msbAux : Nat → Nat → Nat
  | 0, _ => 0
  | fuel + 1, n => if 2 ≤ n then msbAux fuel (n / 2) + 1 else 0

/-- numpy's `aquicksort_` restricted to the segment `pl .. pr` of `ts`:
segments longer than `SMALL_QUICKSORT = 15` are partitioned around a
median-of-three pivot and both sides sorted recursively (the C code keeps one
side on an explicit stack; the final index list does not depend on that
processing order, and the global `depth_limit` budget of partition rounds is
threaded through and returned); segments of at most 16 elements get a single
stable insertion sort. -/
def aqsortAux (keys : List Nat) :
    Nat → Nat → List Nat → Nat → Nat → Option (List Nat × Nat)
  | 0, _, _, _, _ => none
  | fuel + 1, depth, ts, pl, pr =>
      if 15 < pr - pl then
        match depth with
        | 0 => none
        | depth + 1 =>
            let pm := pl + (pr - pl) / 2
            let ts := if keyAt keys ts pm < keyAt keys ts pl then swapIdx ts pm pl else ts
            let ts := if keyAt keys ts pr < keyAt keys ts pm then swapIdx ts pr pm else ts
            let ts := if keyAt keys ts pm < keyAt keys ts pl then swapIdx ts pm pl else ts
            let vp := keyAt keys ts pm
            let ts := swapIdx ts pm (pr - 1)
            match partLoop keys vp (fuel + 1) ts pl (pr - 1) with
            | none => none
            | some (ts, pi) =>
                let ts := swapIdx ts pi (pr - 1)
                match aqsortAux keys fuel depth ts pl (pi - 1) with
                | none => none
                | some (ts, depth) => aqsortAux keys fuel depth ts (pi + 1) pr
      else
        some (insLoop keys pl (pr - pl) ts (pl + 1), depth)

/-- numpy's ascending `argsort(kind='quicksort')` of a key list: run
`aquicksort_` on the identity index list with `depth_limit =
2 * npy_get_msb(n)` and fuel ample for `n` elements. -/
def npArgsort (keys : List Nat) : Option (List Nat) :=
  let n := keys.length
  if n ≤ 1 then some (List.range n)
  else
    match aqsortAux keys (n * n + n + 1) (2 * msbAux n n) (List.range n) 0 (n - 1) with
    | none => none
    | some (ts, _) => some ts

/-- pandas `nargsort(key, kind='quicksort', ascending=False)` for a key
column with no missing values (priority scores are always present), as
`pandas.core.sorting.nargsort` computes it: reverse the keys and the index
array, take the ascending argsort of the requested kind, compose, and
reverse the resulting indexer. -/
def nargsortDesc (keys : List Nat) : Option (List Nat) :=
  let non_nans := keys.reverse
  let non_nan_idx := (List.range keys.length).reverse
  match npArgsort non_nans with
  | none => none
  | some a => some ((a.map (fun i => non_nan_idx.getD i 0)).reverse)

/-- `top_villages` of `app.py` line 163:
`df.sort_values(by="priority_score", ascending=False).head(5)` — the rows
reordered by the descending `nargsort` of their priority scores, first five
kept. -/
def top_villages (dfL : List Village) (bt : Thresholds) : Option (List Village) :=
  match nargsortDesc (dfL.map (fun r => scoreOf r bt)) with
  | none => none
  | some idx => some ((idx.filterMap (fun i => dfL[i]?)).take 5)

/-! ### Concrete inputs used by witnesses and counterexamples -/

/-- The first worked example of the spec (§8): every category deficient,
score 13. -/
def fullGapVillage (name : String) : Village :=
  { village_name := name, population := 1000, households := 100, schools := 0,
    toilets := 0, PHCs := 0, water_points := 0, electricity_hours := 0 }

/-- The second worked example of the spec (§8): every requirement met under
the base thresholds, score 0. -/
def noGapVillage (name : String) : Village :=
  { village_name := name, population := 500, households := 50, schools := 1,
    toilets := 50, PHCs := 1, water_points := 1, electricity_hours := 24 }

/-- Seventeen identical villages (named "V0" … "V16"), all with the same
priority score: the tie-ladder on which the ranking's sort reorders
equal-score rows. -/
def tieDf : List Village :=
  (List.range 17).map (fun i => fullGapVillage s!"V{i}")

/-! ## Characterization of `calculate_gaps` -/

/-- `calculate_gaps` with each sequential accumulation flattened into the
concatenation / sum of five independent conditional pieces. -/
theorem calculate_gaps_flat (row : Village) (bt : Thresholds) :
    calculate_gaps row bt =
      ((if deficient row bt .Schools then ["Schools"] else []) ++
       (if deficient row bt .Toilets then ["Toilets"] else []) ++
       (if deficient row bt .PHCs then ["PHCs"] else []) ++
       (if deficient row bt .WaterPoints then ["Water Points"] else []) ++
       (if deficient row bt .Electricity then ["Electricity"] else []),
       schoolsContribution row bt + toiletsContribution row bt +
         phcsContribution row bt + waterContribution row bt +
         electricityContribution row bt,
       (if deficient row bt .Schools then [improvementText row bt .Schools] else []) ++
       (if deficient row bt .Toilets then [improvementText row bt .Toilets] else []) ++
       (if deficient row bt .PHCs then [improvementText row bt .PHCs] else []) ++
       (if deficient row bt .WaterPoints then [improvementText row bt .WaterPoints] else []) ++
       (if deficient row bt .Electricity then [improvementText row bt .Electricity] else [])) := by
  simp only [calculate_gaps, deficient, improvementText, schoolsContribution,
    toiletsContribution, phcsContribution, waterContribution,
    electricityContribution, required_schools, required_toilets, required_water,
    decide_eq_true_eq]
  split_ifs <;> simp

/-- Filtering the ordered category list is the same as concatenating the five
conditional singletons. -/
theorem filter_categoryOrder (p : Category → Bool) :
    categoryOrder.filter p =
      (if p .Schools then [Category.Schools] else []) ++
      (if p .Toilets then [Category.Toilets] else []) ++
      (if p .PHCs then [Category.PHCs] else []) ++
      (if p .WaterPoints then [Category.WaterPoints] else []) ++
      (if p .Electricity then [Category.Electricity] else []) := by
  simp only [categoryOrder, List.filter_cons, List.filter_nil]
  split_ifs <;> simp

/-- `calculate_gaps` characterized componentwise: the gaps list is the
in-order filter of the five categories by deficiency (rendered through their
labels), the score is the sum of the five contributions, and the
improvements list carries the suggestion text of each emitted gap. -/
theorem calculate_gaps_eq (row : Village) (bt : Thresholds) :
    calculate_gaps row bt =
      ((categoryOrder.filter (deficient row bt)).map Category.label,
       schoolsContribution row bt + toiletsContribution row bt +
         phcsContribution row bt + waterContribution row bt +
         electricityContribution row bt,
       (categoryOrder.filter (deficient row bt)).map (improvementText row bt)) := by
  rw [calculate_gaps_flat, filter_categoryOrder (deficient row bt)]
  split_ifs <;> simp [Category.label]

/-- The score component of the characterization. -/
theorem scoreOf_eq (row : Village) (bt : Thresholds) :
    scoreOf row bt =
      schoolsContribution row bt + toiletsContribution row bt +
      phcsContribution row bt + waterContribution row bt +
      electricityContribution row bt := by
  unfold scoreOf; rw [calculate_gaps_eq]

/-- The gaps component of the characterization. -/
theorem gapsOf_eq (row : Village) (bt : Thresholds) :
    gapsOf row bt = (categoryOrder.filter (deficient row bt)).map Category.label := by
  unfold gapsOf; rw [calculate_gaps_eq]

/-- The improvements component of the characterization. -/
theorem improvementsOf_eq (row : Village) (bt : Thresholds) :
    improvementsOf row bt =
      (categoryOrder.filter (deficient row bt)).map (improvementText row bt) := by
  unfold improvementsOf; rw [calculate_gaps_eq]

/-- A category contributes a positive amount exactly when it is deficient. -/
theorem contribution_pos_iff (row : Village) (bt : Thresholds) (c : Category) :
    0 < contribution row bt c ↔ deficient row bt c = true := by
  cases c <;>
    simp only [contribution, deficient, schoolsContribution, toiletsContribution,
      phcsContribution, waterContribution, electricityContribution, ceilDiv,
      decide_eq_true_eq] <;>
    split_ifs <;> omega

/-- A category contributes 0 exactly when it is not deficient. -/
theorem contribution_eq_zero_iff (row : Village) (bt : Thresholds) (c : Category) :
    contribution row bt c = 0 ↔ deficient row bt c = false := by
  rw [← Bool.not_eq_true, ← contribution_pos_iff row bt c]
  omega

/-- The score vanishes exactly when no category is deficient. -/
theorem score_zero_iff_none_deficient (row : Village) (bt : Thresholds) :
    scoreOf row bt = 0 ↔ ∀ c, deficient row bt c = false := by
  rw [scoreOf_eq]
  constructor
  · intro h c
    rw [← contribution_eq_zero_iff]
    cases c <;> simp only [contribution] <;> omega
  · intro h
    have h1 := (contribution_eq_zero_iff row bt .Schools).mpr (h _)
    have h2 := (contribution_eq_zero_iff row bt .Toilets).mpr (h _)
    have h3 := (contribution_eq_zero_iff row bt .PHCs).mpr (h _)
    have h4 := (contribution_eq_zero_iff row bt .WaterPoints).mpr (h _)
    have h5 := (contribution_eq_zero_iff row bt .Electricity).mpr (h _)
    simp only [contribution] at h1 h2 h3 h4 h5
    omega

/-- The gaps list is empty exactly when no category is deficient. -/
theorem gapsOf_eq_nil_iff (row : Village) (bt : Thresholds) :
    gapsOf row bt = [] ↔ ∀ c, deficient row bt c = false := by
  rw [gapsOf_eq]
  simp only [List.map_eq_nil_iff, List.filter_eq_nil_iff, categoryOrder,
    List.mem_cons, List.not_mem_nil]
  constructor
  · intro h c
    cases c <;> simp_all
  · intro h c hc
    simp [h c]

/-- The gaps component of the flattened characterization. -/
theorem gapsOf_flat (row : Village) (bt : Thresholds) :
    gapsOf row bt =
      (if deficient row bt .Schools then ["Schools"] else []) ++
      (if deficient row bt .Toilets then ["Toilets"] else []) ++
      (if deficient row bt .PHCs then ["PHCs"] else []) ++
      (if deficient row bt .WaterPoints then ["Water Points"] else []) ++
      (if deficient row bt .Electricity then ["Electricity"] else []) := by
  unfold gapsOf; rw [calculate_gaps_flat]

/-- Membership in a conditional singleton list. -/
theorem mem_ite_singleton {x y : String} {c : Prop} [Decidable c] :
    (x ∈ if c then [y] else []) ↔ c ∧ x = y := by
  split_ifs with h <;> simp_all

/-- A category's label appears in the gaps list exactly when the category is
deficient. -/
theorem label_mem_gapsOf_iff (row : Village) (bt : Thresholds) (c : Category) :
    c.label ∈ gapsOf row bt ↔ deficient row bt c = true := by
  rw [gapsOf_flat]
  cases c <;>
    simp [Category.label, List.mem_append, mem_ite_singleton]

/-! ## Characterization of the prototype's `analyze_gaps` -/

/-- `analyze_gaps` flattened the same way: note the flat `+ 3` for the PHC
rule and the electricity-before-water evaluation order. -/
theorem analyze_gaps_flat (row : Village) :
    analyze_gaps row =
      ((if deficient row BASE_THRESHOLDS .Schools then ["Schools"] else []) ++
       (if deficient row BASE_THRESHOLDS .Toilets then ["Toilets"] else []) ++
       (if deficient row BASE_THRESHOLDS .PHCs then ["PHC"] else []) ++
       (if deficient row BASE_THRESHOLDS .Electricity then ["Electricity"] else []) ++
       (if deficient row BASE_THRESHOLDS .WaterPoints then ["Water"] else []),
       schoolsContribution row BASE_THRESHOLDS +
         toiletsContribution row BASE_THRESHOLDS +
         (if deficient row BASE_THRESHOLDS .PHCs then 3 else 0) +
         electricityContribution row BASE_THRESHOLDS +
         waterContribution row BASE_THRESHOLDS) := by
  simp only [analyze_gaps, deficient, schoolsContribution, toiletsContribution,
    phcsContribution, waterContribution, electricityContribution,
    required_schools, required_toilets, required_water, decide_eq_true_eq]
  split_ifs <;> simp

/-- Filtering the prototype's category order is the same as concatenating the
five conditional singletons in that order. -/
theorem filter_protoOrder (p : Category → Bool) :
    protoOrder.filter p =
      (if p .Schools then [Category.Schools] else []) ++
      (if p .Toilets then [Category.Toilets] else []) ++
      (if p .PHCs then [Category.PHCs] else []) ++
      (if p .Electricity then [Category.Electricity] else []) ++
      (if p .WaterPoints then [Category.WaterPoints] else []) := by
  simp only [protoOrder, List.filter_cons, List.filter_nil]
  split_ifs <;> simp

/-- Under the base thresholds the prototype's flat `+ 3` for a PHC gap equals
the dashboard's `shortfall * 3` (the shortfall is exactly 1 there). -/
theorem phcsContribution_base (row : Village) :
    phcsContribution row BASE_THRESHOLDS =
      (if deficient row BASE_THRESHOLDS .PHCs then 3 else 0) := by
  simp only [phcsContribution, deficient, BASE_THRESHOLDS, decide_eq_true_eq]
  split_ifs <;> omega

/-! ## Monotonicity of the per-category contributions -/

/-- Adding schools never increases the schools contribution; the other four
contributions do not mention the school count at all. -/
theorem schoolsContribution_anti (row : Village) (bt : Thresholds) (s' : Nat)
    (h : row.schools ≤ s') :
    schoolsContribution { row with schools := s' } bt ≤ schoolsContribution row bt := by
  have e1 : schoolsContribution { row with schools := s' } bt =
      (if s' < required_schools row bt then required_schools row bt - s' else 0) := rfl
  have e0 : schoolsContribution row bt =
      (if row.schools < required_schools row bt
       then required_schools row bt - row.schools else 0) := rfl
  rw [e1, e0]
  split_ifs <;> omega

/-- Adding toilets never increases the toilets contribution. -/
theorem toiletsContribution_anti (row : Village) (bt : Thresholds) (t' : Nat)
    (h : row.toilets ≤ t') :
    toiletsContribution { row with toilets := t' } bt ≤ toiletsContribution row bt := by
  have e1 : toiletsContribution { row with toilets := t' } bt =
      (if t' < required_toilets row bt
       then min 5 (ceilDiv (required_toilets row bt - t') 100) else 0) := rfl
  have e0 : toiletsContribution row bt =
      (if row.toilets < required_toilets row bt
       then min 5 (ceilDiv (required_toilets row bt - row.toilets) 100) else 0) := rfl
  rw [e1, e0]
  unfold ceilDiv
  split_ifs <;> omega

/-- Adding PHCs never increases the PHCs contribution. -/
theorem phcsContribution_anti (row : Village) (bt : Thresholds) (p' : Nat)
    (h : row.PHCs ≤ p') :
    phcsContribution { row with PHCs := p' } bt ≤ phcsContribution row bt := by
  have e1 : phcsContribution { row with PHCs := p' } bt =
      (if p' < bt.PHCs_min then (bt.PHCs_min - p') * 3 else 0) := rfl
  have e0 : phcsContribution row bt =
      (if row.PHCs < bt.PHCs_min then (bt.PHCs_min - row.PHCs) * 3 else 0) := rfl
  rw [e1, e0]
  split_ifs <;> omega

/-- Adding water points never increases the water contribution. -/
theorem waterContribution_anti (row : Village) (bt : Thresholds) (w' : Nat)
    (h : row.water_points ≤ w') :
    waterContribution { row with water_points := w' } bt ≤ waterContribution row bt := by
  have e1 : waterContribution { row with water_points := w' } bt =
      (if w' < required_water row bt then required_water row bt - w' else 0) := rfl
  have e0 : waterContribution row bt =
      (if row.water_points < required_water row bt
       then required_water row bt - row.water_points else 0) := rfl
  rw [e1, e0]
  split_ifs <;> omega

/-- Adding electricity hours never increases the electricity contribution. -/
theorem electricityContribution_anti (row : Village) (bt : Thresholds) (h' : Nat)
    (h : row.electricity_hours ≤ h') :
    electricityContribution { row with electricity_hours := h' } bt ≤
      electricityContribution row bt := by
  have e1 : electricityContribution { row with electricity_hours := h' } bt =
      (if h' < bt.electricity_hours_min
       then ceilDiv (bt.electricity_hours_min - h') 4 else 0) := rfl
  have e0 : electricityContribution row bt =
      (if row.electricity_hours < bt.electricity_hours_min
       then ceilDiv (bt.electricity_hours_min - row.electricity_hours) 4 else 0) := rfl
  rw [e1, e0]
  unfold ceilDiv
  split_ifs <;> omega

/-! ## The claims -/

/-- C1: for every village record (non-negative counts, embedded as `Nat`) and
every threshold set within its declared slider bounds, the score returned by
`calculate_gaps` is a non-negative integer (a `Nat`) equal to the sum of the
five per-category contributions of §4.1 — the schools shortfall against
`max(1, ceil(population/1000) × schools_per_1000)`,
`min(5, ceil(toilet_shortfall/100))` against
`ceil(households × toilets_per_household)`, `3 ×` the PHC shortfall against
`PHCs_min`, the water-point shortfall against
`max(1, ceil(households/50) × water_points_per_50_hh)`, and
`ceil((electricity_hours_min − electricity_hours)/4)` — each contribution
being 0 when its category meets its requirement. -/
theorem C1_score_is_sum_of_contributions (row : Village) (bt : Thresholds)
    (hbt : InBounds bt) :
    scoreOf row bt =
      schoolsContribution row bt + toiletsContribution row bt +
        phcsContribution row bt + waterContribution row bt +
        electricityContribution row bt ∧
    (required_schools row bt ≤ row.schools → schoolsContribution row bt = 0) ∧
    (required_toilets row bt ≤ row.toilets → toiletsContribution row bt = 0) ∧
    (bt.PHCs_min ≤ row.PHCs → phcsContribution row bt = 0) ∧
    (required_water row bt ≤ row.water_points → waterContribution row bt = 0) ∧
    (bt.electricity_hours_min ≤ row.electricity_hours →
      electricityContribution row bt = 0) := by
  refine ⟨scoreOf_eq row bt, fun hle => ?_, fun hle => ?_, fun hle => ?_,
    fun hle => ?_, fun hle => ?_⟩
  · unfold schoolsContribution; rw [if_neg (by omega)]
  · unfold toiletsContribution; rw [if_neg (by omega)]
  · unfold phcsContribution; rw [if_neg (by omega)]
  · unfold waterContribution; rw [if_neg (by omega)]
  · unfold electricityContribution; rw [if_neg (by omega)]

/-- C1 witness: the base thresholds are in bounds, and on the spec's fully
deficient worked example the decomposed score evaluates to 13. -/
theorem C1_witness :
    InBounds BASE_THRESHOLDS ∧ scoreOf (fullGapVillage "Rampur") BASE_THRESHOLDS = 13 :=
  ⟨by decide, by
    have h := C1_score_is_sum_of_contributions (fullGapVillage "Rampur")
      BASE_THRESHOLDS (by decide)
    rw [h.1]; decide⟩

/-- C2: for every village record and in-bounds threshold set the score is 0
iff the gaps list is empty; a village with no deficient category yields empty
gaps, empty improvements and score 0; and every emitted gap category
contributes at least 1 to the score. -/
theorem C2_zero_score_iff_no_gaps (row : Village) (bt : Thresholds)
    (hbt : InBounds bt) :
    (scoreOf row bt = 0 ↔ gapsOf row bt = []) ∧
    ((∀ c, deficient row bt c = false) →
       gapsOf row bt = [] ∧ improvementsOf row bt = [] ∧ scoreOf row bt = 0) ∧
    (∀ c, c.label ∈ gapsOf row bt → 1 ≤ contribution row bt c) := by
  refine ⟨?_, ?_, ?_⟩
  · rw [score_zero_iff_none_deficient, gapsOf_eq_nil_iff]
  · intro h
    refine ⟨(gapsOf_eq_nil_iff row bt).mpr h, ?_,
      (score_zero_iff_none_deficient row bt).mpr h⟩
    rw [improvementsOf_eq]
    have hfil : categoryOrder.filter (deficient row bt) = [] := by
      rw [List.filter_eq_nil_iff]; intro c _; simp [h c]
    rw [hfil]; rfl
  · intro c hc
    have hd := (label_mem_gapsOf_iff row bt c).mp hc
    have hp := (contribution_pos_iff row bt c).mpr hd
    omega

/-- C2 witness: on the spec's fully satisfied worked example under the base
thresholds, score 0 and empty gaps coincide. -/
theorem C2_witness :
    InBounds BASE_THRESHOLDS ∧
    (scoreOf (noGapVillage "Sundarpur") BASE_THRESHOLDS = 0 ↔
      gapsOf (noGapVillage "Sundarpur") BASE_THRESHOLDS = []) :=
  ⟨by decide,
    (C2_zero_score_iff_no_gaps (noGapVillage "Sundarpur") BASE_THRESHOLDS (by decide)).1⟩

/-- C4: `calculate_gaps` evaluates exactly the five rules in the fixed order
Schools, Toilets, PHCs, Water Points, Electricity, and the emitted gaps and
improvements sequences list the deficient categories in exactly that order. -/
theorem C4_fixed_evaluation_order (row : Village) (bt : Thresholds)
    (hbt : InBounds bt) :
    categoryOrder =
      [.Schools, .Toilets, .PHCs, .WaterPoints, .Electricity] ∧
    gapsOf row bt = (categoryOrder.filter (deficient row bt)).map Category.label ∧
    improvementsOf row bt =
      (categoryOrder.filter (deficient row bt)).map (improvementText row bt) :=
  ⟨rfl, gapsOf_eq row bt, improvementsOf_eq row bt⟩

/-- C4 witness: on the fully deficient example all five categories are
emitted, in evaluation order. -/
theorem C4_witness :
    InBounds BASE_THRESHOLDS ∧
    gapsOf (fullGapVillage "Rampur") BASE_THRESHOLDS =
      ["Schools", "Toilets", "PHCs", "Water Points", "Electricity"] :=
  ⟨by decide, by
    have h := C4_fixed_evaluation_order (fullGapVillage "Rampur")
      BASE_THRESHOLDS (by decide)
    rw [h.2.1]; decide⟩

/-- The tier severity of the assigned color, as a function of the score. -/
theorem tierSeverity_assign (s : Nat) :
    tierSeverity (assign_priority_color s) =
      if 10 ≤ s then 2 else if 5 ≤ s then 1 else 0 := by
  unfold assign_priority_color
  split_ifs <;> decide

/-- C5: `assign_priority_color` is a pure total function on `Nat` with
exactly the bands score ≥ 10 → "red", 5 ≤ score < 10 → "orange",
score < 5 → "green"; it is monotone in tier severity, and
classify(4) = "green", classify(5) = "orange", classify(9) = "orange",
classify(10) = "red". -/
theorem C5_priority_bands :
    (∀ s : Nat, (10 ≤ s → assign_priority_color s = "red") ∧
      (5 ≤ s → s < 10 → assign_priority_color s = "orange") ∧
      (s < 5 → assign_priority_color s = "green")) ∧
    (∀ s t : Nat, s ≤ t →
      tierSeverity (assign_priority_color s) ≤ tierSeverity (assign_priority_color t)) ∧
    assign_priority_color 4 = "green" ∧ assign_priority_color 5 = "orange" ∧
    assign_priority_color 9 = "orange" ∧ assign_priority_color 10 = "red" := by
  refine ⟨fun s => ⟨fun h => ?_, fun h5 h10 => ?_, fun h => ?_⟩,
    fun s t hst => ?_, rfl, rfl, rfl, rfl⟩
  · unfold assign_priority_color; rw [if_pos h]
  · unfold assign_priority_color; rw [if_neg (by omega), if_pos h5]
  · unfold assign_priority_color; rw [if_neg (by omega), if_neg (by omega)]
  · rw [tierSeverity_assign s, tierSeverity_assign t]
    split_ifs <;> omega

/-- C5 witness: the bands and the severity monotonicity at concrete scores. -/
theorem C5_witness :
    assign_priority_color 12 = "red" ∧
    tierSeverity (assign_priority_color 3) ≤ tierSeverity (assign_priority_color 12) :=
  ⟨(C5_priority_bands.1 12).1 (by decide), C5_priority_bands.2.1 3 12 (by decide)⟩

/-- C6: the toilet score contribution `min(5, ceil(shortfall/100))` is
monotone non-decreasing in the shortfall, equals exactly 5 for every
shortfall ≥ 500, never exceeds 5, and is exactly what `calculate_gaps` adds
for a deficient toilet category. -/
theorem C6_toilet_contribution_saturates :
    (∀ a b : Nat, a ≤ b → toiletGapScore a ≤ toiletGapScore b) ∧
    (∀ n : Nat, 500 ≤ n → toiletGapScore n = 5) ∧
    (∀ n : Nat, toiletGapScore n ≤ 5) ∧
    (∀ row bt, row.toilets < required_toilets row bt →
       toiletsContribution row bt =
         toiletGapScore (required_toilets row bt - row.toilets)) := by
  refine ⟨fun a b h => ?_, fun n h => ?_, fun n => ?_, fun row bt h => ?_⟩
  · unfold toiletGapScore ceilDiv; omega
  · unfold toiletGapScore ceilDiv; omega
  · unfold toiletGapScore ceilDiv; omega
  · unfold toiletsContribution toiletGapScore; rw [if_pos h]

/-- C6 witness: monotonicity at 200 ≤ 350 and saturation at 500. -/
theorem C6_witness :
    toiletGapScore 200 ≤ toiletGapScore 350 ∧ toiletGapScore 500 = 5 :=
  ⟨C6_toilet_contribution_saturates.1 200 350 (by decide),
   C6_toilet_contribution_saturates.2.1 500 (by decide)⟩

/-- C7: for every village and increment `k ≥ 1`, the simulation's derived
copy changes exactly one field — Toilet raises the toilet count by exactly
`100k`; Electricity Hours sets the hours to `min(24, hours + k)`, never above
24; School, PHC and Water Point add exactly `k` to their count — while every
other field is left as in the original. -/
theorem C7_simulation_single_field (v : Village) (k : Nat) (hk : 1 ≤ k) :
    ((applyUpgrade v .Toilet100 k).toilets = v.toilets + 100 * k ∧
     (applyUpgrade v .Toilet100 k).village_name = v.village_name ∧
     (applyUpgrade v .Toilet100 k).population = v.population ∧
     (applyUpgrade v .Toilet100 k).households = v.households ∧
     (applyUpgrade v .Toilet100 k).schools = v.schools ∧
     (applyUpgrade v .Toilet100 k).PHCs = v.PHCs ∧
     (applyUpgrade v .Toilet100 k).water_points = v.water_points ∧
     (applyUpgrade v .Toilet100 k).electricity_hours = v.electricity_hours) ∧
    ((applyUpgrade v .ElectricityHours k).electricity_hours =
        min 24 (v.electricity_hours + k) ∧
     (applyUpgrade v .ElectricityHours k).electricity_hours ≤ 24 ∧
     (applyUpgrade v .ElectricityHours k).village_name = v.village_name ∧
     (applyUpgrade v .ElectricityHours k).population = v.population ∧
     (applyUpgrade v .ElectricityHours k).households = v.households ∧
     (applyUpgrade v .ElectricityHours k).schools = v.schools ∧
     (applyUpgrade v .ElectricityHours k).toilets = v.toilets ∧
     (applyUpgrade v .ElectricityHours k).PHCs = v.PHCs ∧
     (applyUpgrade v .ElectricityHours k).water_points = v.water_points) ∧
    ((applyUpgrade v .School k).schools = v.schools + k ∧
     (applyUpgrade v .School k).village_name = v.village_name ∧
     (applyUpgrade v .School k).population = v.population ∧
     (applyUpgrade v .School k).households = v.households ∧
     (applyUpgrade v .School k).toilets = v.toilets ∧
     (applyUpgrade v .School k).PHCs = v.PHCs ∧
     (applyUpgrade v .School k).water_points = v.water_points ∧
     (applyUpgrade v .School k).electricity_hours = v.electricity_hours) ∧
    ((applyUpgrade v .PHC k).PHCs = v.PHCs + k ∧
     (applyUpgrade v .PHC k).village_name = v.village_name ∧
     (applyUpgrade v .PHC k).population = v.population ∧
     (applyUpgrade v .PHC k).households = v.households ∧
     (applyUpgrade v .PHC k).schools = v.schools ∧
     (applyUpgrade v .PHC k).toilets = v.toilets ∧
     (applyUpgrade v .PHC k).water_points = v.water_points ∧
     (applyUpgrade v .PHC k).electricity_hours = v.electricity_hours) ∧
    ((applyUpgrade v .WaterPoint k).water_points = v.water_points + k ∧
     (applyUpgrade v .WaterPoint k).village_name = v.village_name ∧
     (applyUpgrade v .WaterPoint k).population = v.population ∧
     (applyUpgrade v .WaterPoint k).households = v.households ∧
     (applyUpgrade v .WaterPoint k).schools = v.schools ∧
     (applyUpgrade v .WaterPoint k).toilets = v.toilets ∧
     (applyUpgrade v .WaterPoint k).PHCs = v.PHCs ∧
     (applyUpgrade v .WaterPoint k).electricity_hours = v.electricity_hours) := by
  refine ⟨⟨by simp [applyUpgrade]; omega, rfl, rfl, rfl, rfl, rfl, rfl, rfl⟩,
    ⟨rfl, ?_, rfl, rfl, rfl, rfl, rfl, rfl, rfl⟩,
    ⟨rfl, rfl, rfl, rfl, rfl, rfl, rfl, rfl⟩,
    ⟨rfl, rfl, rfl, rfl, rfl, rfl, rfl, rfl⟩,
    ⟨rfl, rfl, rfl, rfl, rfl, rfl, rfl, rfl⟩⟩
  have : (applyUpgrade v .ElectricityHours k).electricity_hours =
      min 24 (v.electricity_hours + k) := rfl
  rw [this]
  exact Nat.min_le_left _ _

/-- C7 witness: a Toilet simulation with increment 2 adds exactly 200
toilets on a concrete village. -/
theorem C7_witness :
    (1 : Nat) ≤ 2 ∧
    (applyUpgrade (fullGapVillage "Rampur") .Toilet100 2).toilets =
      (fullGapVillage "Rampur").toilets + 100 * 2 :=
  ⟨by decide, (C7_simulation_single_field (fullGapVillage "Rampur") 2 (by decide)).1.1⟩

/-- C8: running a simulation leaves the original collection unchanged — the
collection the block leaves behind is the input collection, re-evaluating it
yields the same score sequence, and the simulated village's recomputed score
equals the block's reported pre-simulation score. -/
theorem C8_simulation_preserves_collection (dfL : List Village) (bt : Thresholds)
    (name : String) (infra : Infra) (k : Nat) (res : SimResult)
    (h : simulation dfL bt name infra k = some res) :
    res.df_after = dfL ∧
    analyzeAllScores res.df_after bt = analyzeAllScores dfL bt ∧
    ∀ row, dfL.find? (fun r => r.village_name == name) = some row →
      scoreOf row bt = res.original_score := by
  unfold simulation at h
  cases hf : dfL.find? (fun r => r.village_name == name) with
  | none => rw [hf] at h; exact absurd h (by simp)
  | some row0 =>
      rw [hf] at h
      injection h with h
      subst h
      refine ⟨rfl, rfl, fun row hrow => ?_⟩
      injection hrow with hrow
      subst hrow
      rfl

/-- C8 witness: a concrete one-village simulation returns the collection
unchanged (school upgrade drops the score from 13 to 12; the original
village still scores 13). -/
theorem C8_witness :
    simulation [fullGapVillage "Rampur"] BASE_THRESHOLDS "Rampur" .School 1 =
      some { new_score := 12, new_color := "red", original_score := 13,
             original_color := "red", df_after := [fullGapVillage "Rampur"] } ∧
    (SimResult.df_after
      { new_score := 12, new_color := "red", original_score := 13,
        original_color := "red", df_after := [fullGapVillage "Rampur"] }) =
      [fullGapVillage "Rampur"] :=
  ⟨by decide,
    (C8_simulation_preserves_collection [fullGapVillage "Rampur"] BASE_THRESHOLDS
      "Rampur" .School 1
      { new_score := 12, new_color := "red", original_score := 13,
        original_color := "red", df_after := [fullGapVillage "Rampur"] }
      (by decide)).1⟩

/-- C9: the prototype's `analyze_gaps` returns exactly the score
`calculate_gaps` returns under the base thresholds, and its gaps list is the
same in-order filter of deficient categories up to the prototype's labels
("PHC", "Water") and its evaluation order (electricity before water). -/
theorem C9_prototype_matches_base (row : Village) :
    (analyze_gaps row).2 = scoreOf row BASE_THRESHOLDS ∧
    (analyze_gaps row).1 =
      (protoOrder.filter (deficient row BASE_THRESHOLDS)).map protoLabel := by
  have hf := analyze_gaps_flat row
  constructor
  · have h2 : (analyze_gaps row).2 =
        schoolsContribution row BASE_THRESHOLDS +
          toiletsContribution row BASE_THRESHOLDS +
          (if deficient row BASE_THRESHOLDS .PHCs then 3 else 0) +
          electricityContribution row BASE_THRESHOLDS +
          waterContribution row BASE_THRESHOLDS := by
      rw [hf]
    rw [h2, scoreOf_eq, ← phcsContribution_base]
    omega
  · have h1 : (analyze_gaps row).1 =
        (if deficient row BASE_THRESHOLDS .Schools then ["Schools"] else []) ++
        (if deficient row BASE_THRESHOLDS .Toilets then ["Toilets"] else []) ++
        (if deficient row BASE_THRESHOLDS .PHCs then ["PHC"] else []) ++
        (if deficient row BASE_THRESHOLDS .Electricity then ["Electricity"] else []) ++
        (if deficient row BASE_THRESHOLDS .WaterPoints then ["Water"] else []) := by
      rw [hf]
    rw [h1, filter_protoOrder]
    split_ifs <;> simp [protoLabel]

/-- C10: under any in-bounds threshold set, increasing exactly one of the
five infrastructure fields (the hours staying within [0, 24]) never
increases the score of `calculate_gaps`. -/
theorem C10_score_monotone_in_infrastructure (row : Village) (bt : Thresholds)
    (hbt : InBounds bt) (k : Nat) (hk : 1 ≤ k) :
    scoreOf { row with schools := row.schools + k } bt ≤ scoreOf row bt ∧
    scoreOf { row with toilets := row.toilets + k } bt ≤ scoreOf row bt ∧
    scoreOf { row with PHCs := row.PHCs + k } bt ≤ scoreOf row bt ∧
    scoreOf { row with water_points := row.water_points + k } bt ≤ scoreOf row bt ∧
    ∀ h', row.electricity_hours ≤ h' → h' ≤ 24 →
      scoreOf { row with electricity_hours := h' } bt ≤ scoreOf row bt := by
  refine ⟨?_, ?_, ?_, ?_, fun h' hle h24 => ?_⟩ <;> rw [scoreOf_eq, scoreOf_eq]
  · have hs := schoolsContribution_anti row bt (row.schools + k) (by omega)
    have e2 : toiletsContribution { row with schools := row.schools + k } bt =
        toiletsContribution row bt := rfl
    have e3 : phcsContribution { row with schools := row.schools + k } bt =
        phcsContribution row bt := rfl
    have e4 : waterContribution { row with schools := row.schools + k } bt =
        waterContribution row bt := rfl
    have e5 : electricityContribution { row with schools := row.schools + k } bt =
        electricityContribution row bt := rfl
    omega
  · have ht := toiletsContribution_anti row bt (row.toilets + k) (by omega)
    have e1 : schoolsContribution { row with toilets := row.toilets + k } bt =
        schoolsContribution row bt := rfl
    have e3 : phcsContribution { row with toilets := row.toilets + k } bt =
        phcsContribution row bt := rfl
    have e4 : waterContribution { row with toilets := row.toilets + k } bt =
        waterContribution row bt := rfl
    have e5 : electricityContribution { row with toilets := row.toilets + k } bt =
        electricityContribution row bt := rfl
    omega
  · have hp := phcsContribution_anti row bt (row.PHCs + k) (by omega)
    have e1 : schoolsContribution { row with PHCs := row.PHCs + k } bt =
        schoolsContribution row bt := rfl
    have e2 : toiletsContribution { row with PHCs := row.PHCs + k } bt =
        toiletsContribution row bt := rfl
    have e4 : waterContribution { row with PHCs := row.PHCs + k } bt =
        waterContribution row bt := rfl
    have e5 : electricityContribution { row with PHCs := row.PHCs + k } bt =
        electricityContribution row bt := rfl
    omega
  · have hw := waterContribution_anti row bt (row.water_points + k) (by omega)
    have e1 : schoolsContribution { row with water_points := row.water_points + k } bt =
        schoolsContribution row bt := rfl
    have e2 : toiletsContribution { row with water_points := row.water_points + k } bt =
        toiletsContribution row bt := rfl
    have e3 : phcsContribution { row with water_points := row.water_points + k } bt =
        phcsContribution row bt := rfl
    have e5 : electricityContribution { row with water_points := row.water_points + k } bt =
        electricityContribution row bt := rfl
    omega
  · have he := electricityContribution_anti row bt h' hle
    have e1 : schoolsContribution { row with electricity_hours := h' } bt =
        schoolsContribution row bt := rfl
    have e2 : toiletsContribution { row with electricity_hours := h' } bt =
        toiletsContribution row bt := rfl
    have e3 : phcsContribution { row with electricity_hours := h' } bt =
        phcsContribution row bt := rfl
    have e4 : waterContribution { row with electricity_hours := h' } bt =
        waterContribution row bt := rfl
    omega

/-- C10 witness: one more school on the fully deficient example does not
increase the score. -/
theorem C10_witness :
    InBounds BASE_THRESHOLDS ∧ (1 : Nat) ≤ 1 ∧
    scoreOf { fullGapVillage "Rampur" with
        schools := (fullGapVillage "Rampur").schools + 1 } BASE_THRESHOLDS ≤
      scoreOf (fullGapVillage "Rampur") BASE_THRESHOLDS :=
  ⟨by decide, by decide,
    (C10_score_monotone_in_infrastructure (fullGapVillage "Rampur") BASE_THRESHOLDS
      (by decide) 1 (by decide)).1⟩

/-- C3 (refuting evaluation): on seventeen equal-score villages the ranking
of `app.py` line 163 — pandas `sort_values` with its default
`kind='quicksort'`, i.e. numpy's unstable introsort behind pandas
`nargsort` — emits the top five as V0, V9, V15, V14, V13, although all
scores are equal (13) and the input order within the collection is
V0 … V16: villages V14 and V15 (among others) are equal-score villages
whose relative input order is not preserved, contradicting the claimed
stability. -/
theorem C3_ranking_reorders_equal_scores :
    analyzeAllScores tieDf BASE_THRESHOLDS = List.replicate 17 13 ∧
    (tieDf.map Village.village_name).take 5 = ["V0", "V1", "V2", "V3", "V4"] ∧
    (top_villages tieDf BASE_THRESHOLDS).map (List.map Village.village_name) =
      some ["V0", "V9", "V15", "V14", "V13"] :=
  ⟨by decide, by decide, by decide⟩

end AdarshPulse
